import Mathlib

/-!
Verification of the environment configuration exported by
`src/frontend/src/environments/environment.ts`.

The source module exports a single constant object literal:

  export const environment = {
    production: false,
    apiServerUrl: "http://127.0.0.1:5000",
    auth0: {
      url: "ui-integrated.eu",
      audience: "http://127.0.0.1:5000",
      clientId: "qoP62ttvoO2QNptGjGt1ZX865aiRQx5d",
      callbackURL: "http://127.0.0.1:8100",
    },
  };

We embed it as a Lean structure (typed view) together with an
association-list view recording the object's property names in source
order, so that both value-level and shape-level statements can be made.
-/

/-- The nested `auth0` object of the source module, with the field names
the source gives it: `url`, `audience`, `clientId`, `callbackURL`. -/
structure Auth0Config where
  url : String
  audience : String
  clientId : String
  callbackURL : String
deriving DecidableEq, Repr

/-- The top-level shape of the exported object: `production`,
`apiServerUrl`, and the nested `auth0` record. -/
structure EnvironmentConfig where
  production : Bool
  apiServerUrl : String
  auth0 : Auth0Config
deriving DecidableEq, Repr

/-- The exported constant `environment`, transcribed field by field from
`src/frontend/src/environments/environment.ts`. -/
def environment : EnvironmentConfig :=
  { production := false
    apiServerUrl := "http://127.0.0.1:5000"
    auth0 :=
      { url := "ui-integrated.eu"
        audience := "http://127.0.0.1:5000"
        clientId := "qoP62ttvoO2QNptGjGt1ZX865aiRQx5d"
        callbackURL := "http://127.0.0.1:8100" } }

/-- A JavaScript-like property value: boolean, string, or a nested
object whose own properties are all strings (the only nesting the
source object has). -/
inductive Value where
  | vbool : Bool → Value
  | vstr : String → Value
  | vobj : List (String × String) → Value
deriving DecidableEq, Repr

/-- The property list of the nested `auth0` object, in source order. -/
def auth0KV (a : Auth0Config) : List (String × String) :=
  [("url", a.url), ("audience", a.audience),
   ("clientId", a.clientId), ("callbackURL", a.callbackURL)]

/-- The property list of the top-level exported object, in source
order. -/
def envKV (e : EnvironmentConfig) : List (String × Value) :=
  [("production", Value.vbool e.production),
   ("apiServerUrl", Value.vstr e.apiServerUrl),
   ("auth0", Value.vobj (auth0KV e.auth0))]

/-- The top-level property names of the exported object. -/
def envKeys : List String := (envKV environment).map Prod.fst

/-- The property names of the nested `auth0` object. -/
def auth0Keys : List String := (auth0KV environment.auth0).map Prod.fst

/-- Transcription of the spec's words in §3: the top-level attribute
names the spec claims the record has (it calls the nested record
`auth`). Kept separate from the source-derived shape so the two can be
compared. -/
def specTopLevelAttributeNames : List String :=
  ["production", "apiServerUrl", "auth"]

/-- Transcription of the spec's words in §3: the attribute names the
spec claims the nested record has (`domainPrefix`, `audience`,
`clientId`, `callbackUrl`). Kept separate from the source-derived shape
so the two can be compared. -/
def specAuthAttributeNames : List String :=
  ["domainPrefix", "audience", "clientId", "callbackUrl"]

/-- Boolean prefix test on character lists. -/
def listIsPrefix : List Char → List Char → Bool
  | [], _ => true
  | _ :: _, [] => false
  | a :: as, b :: bs => a == b && listIsPrefix as bs

/-- First occurrence split: `breakOn pat cs = some (pre, post)` when
`cs = pre ++ pat ++ post` with `pre` shortest, `none` when `pat` does
not occur in `cs`. -/
def breakOn (pat : List Char) : List Char → Option (List Char × List Char)
  | [] => none
  | c :: rest =>
    if listIsPrefix pat (c :: rest) then some ([], (c :: rest).drop pat.length)
    else
      match breakOn pat rest with
      | some (pre, post) => some (c :: pre, post)
      | none => none

/-- A parsed URL under the reference grammar: a scheme, a host, and an
optional decimal port. -/
structure URL where
  scheme : String
  host : String
  port : Option Nat
deriving DecidableEq, Repr

/-- Characters admitted in a host name: ASCII letters and digits, dot,
and hyphen. -/
def isHostChar (c : Char) : Bool := c.isAlphanum || c == '.' || c == '-'

/-- Decimal value of a digit list. -/
def digitsToNat (cs : List Char) : Nat :=
  cs.foldl (fun n c => n * 10 + (c.toNat - Char.toNat '0')) 0

/-- Reference URL grammar: `scheme "://" host [":" port]` with a
nonempty all-letter scheme, a nonempty host of host characters, and an
optional nonempty all-digit port. Returns `none` when the string does
not parse. -/
def parseURL (s : String) : Option URL :=
  match breakOn ([':', '/', '/']) s.data with
  | none => none
  | some (sch, rest) =>
    if sch.isEmpty || !(sch.all Char.isAlpha) then none
    else
      match breakOn ([':']) rest with
      | none =>
        if rest.isEmpty || !(rest.all isHostChar) then none
        else some ⟨sch.asString, rest.asString, none⟩
      | some (h, p) =>
        if h.isEmpty || !(h.all isHostChar) || p.isEmpty || !(p.all Char.isDigit) then none
        else some ⟨sch.asString, h.asString, some (digitsToNat p)⟩

/-- A path naming one of the six leaf fields of the configuration. -/
inductive FieldPath where
  | production
  | apiServerUrl
  | auth0Url
  | auth0Audience
  | auth0ClientId
  | auth0CallbackURL
deriving DecidableEq, Repr

/-- Reading one leaf field of a configuration record: a pure, total
projection. -/
def readField (e : EnvironmentConfig) : FieldPath → Value
  | .production => Value.vbool e.production
  | .apiServerUrl => Value.vstr e.apiServerUrl
  | .auth0Url => Value.vstr e.auth0.url
  | .auth0Audience => Value.vstr e.auth0.audience
  | .auth0ClientId => Value.vstr e.auth0.clientId
  | .auth0CallbackURL => Value.vstr e.auth0.callbackURL

/-- The operations the module defines on the process state holding the
record: field reads only. The source declares the object once and
defines no operation that writes to it, so a step reads some field and
leaves the state unchanged. -/
inductive Step : EnvironmentConfig → EnvironmentConfig → Prop where
  | read (p : FieldPath) (s : EnvironmentConfig) : Step s s

/-- States reachable from the loaded configuration under `Step`. -/
inductive Reachable : EnvironmentConfig → Prop where
  | init : Reachable environment
  | step : ∀ {s t : EnvironmentConfig}, Reachable s → Step s t → Reachable t

/-- Every reachable state still holds the initial record. -/
theorem reachable_eq_init : ∀ {s : EnvironmentConfig}, Reachable s → s = environment := by
  intro s h
  induction h with
  | init => rfl
  | step _ hstep ih =>
    cases hstep
    exact ih

/-- Claim C1: the exported constant equals, field for field, the literal
record of §6 of the spec: `production` is `false`, `apiServerUrl` is
"http://127.0.0.1:5000", and the nested record's domain prefix is
"ui-integrated.eu", its audience "http://127.0.0.1:5000", its client
identifier "qoP62ttvoO2QNptGjGt1ZX865aiRQx5d", and its callback URL
"http://127.0.0.1:8100". -/
theorem environment_literal_values :
    environment.production = false ∧
    environment.apiServerUrl = "http://127.0.0.1:5000" ∧
    environment.auth0.url = "ui-integrated.eu" ∧
    environment.auth0.audience = "http://127.0.0.1:5000" ∧
    environment.auth0.clientId = "qoP62ttvoO2QNptGjGt1ZX865aiRQx5d" ∧
    environment.auth0.callbackURL = "http://127.0.0.1:8100" :=
  ⟨rfl, rfl, rfl, rfl, rfl, rfl⟩

/-- Claim C2, counterexample: the claim names the nested record `auth`
with fields `domainPrefix`, `audience`, `clientId`, `callbackUrl`; the
source object's shape disagrees — its nested record is named `auth0`
and its first and last fields are named `url` and `callbackURL`. -/
theorem environment_shape_not_spec_names :
    ¬ (envKeys = specTopLevelAttributeNames ∧ auth0Keys = specAuthAttributeNames) := by
  decide

/-- Claim C2, amended: the configuration record consists of exactly a
top-level `production`, a top-level `apiServerUrl`, and a nested record
named `auth0` whose fields are exactly `url`, `audience`, `clientId`,
and `callbackURL`, in that order, with no other fields and no other
nesting. -/
theorem environment_shape :
    envKeys = ["production", "apiServerUrl", "auth0"] ∧
    auth0Keys = ["url", "audience", "clientId", "callbackURL"] := by
  decide

/-- Claim C3: every field of the instance is present with its declared
type — `production` is a boolean and the five remaining fields are
strings, which the typed embedding gives by construction — and no
string-valued field is the empty string. -/
theorem environment_fields_present_nonempty :
    (environment.production = false ∨ environment.production = true) ∧
    environment.apiServerUrl ≠ "" ∧
    environment.auth0.url ≠ "" ∧
    environment.auth0.audience ≠ "" ∧
    environment.auth0.clientId ≠ "" ∧
    environment.auth0.callbackURL ≠ "" := by
  decide

/-- Claim C4: each of the three URL-typed fields parses under the
reference URL grammar with a scheme, a host, and an optional port; the
parses are `http://127.0.0.1` with ports 5000, 5000, 8100. -/
theorem environment_urls_parse :
    parseURL environment.apiServerUrl = some ⟨"http", "127.0.0.1", some 5000⟩ ∧
    parseURL environment.auth0.audience = some ⟨"http", "127.0.0.1", some 5000⟩ ∧
    parseURL environment.auth0.callbackURL = some ⟨"http", "127.0.0.1", some 8100⟩ := by
  refine ⟨?_, ?_, ?_⟩ <;> rfl

/-- JavaScript property assignment on a plain object, keyed by name:
the source exports an ordinary object literal with no `Object.freeze`,
no `readonly` modifiers and no `as const`, so assignment to a declared
property replaces the stored value (and assignment to a new name
appends it) — it neither throws nor is silently dropped. -/
def setProp (obj : List (String × Value)) (name : String) (v : Value) :
    List (String × Value) :=
  match obj with
  | [] => [(name, v)]
  | (k, w) :: rest =>
    if k == name then (k, v) :: rest else (k, w) :: setProp rest name v

/-- Claim C5, counterexample: an attempted overwrite of a field neither
fails nor is without observable effect — assigning `true` to
`production` on the exported (non-frozen) object yields an object on
which the subsequent read of `production` returns the new value, not
the initial one. -/
theorem overwrite_succeeds_and_observable :
    List.lookup "production"
      (setProp (envKV environment) "production" (Value.vbool true))
      = some (Value.vbool true) ∧
    List.lookup "production" (envKV environment) = some (Value.vbool false) ∧
    List.lookup "production"
      (setProp (envKV environment) "production" (Value.vbool true))
      ≠ List.lookup "production" (envKV environment) := by
  decide

/-- Claim C5, amended: in every execution consisting of the operations
the module itself defines (field reads), any two reads of any field at
any two points return identical values; but the record is not protected
against overwrite — a property assignment on the exported object
succeeds and is observable on subsequent reads. -/
theorem reads_agree_assignment_observable (s t : EnvironmentConfig)
    (hs : Reachable s) (ht : Reachable t) (p : FieldPath) :
    readField s p = readField t p ∧
    (List.lookup "production"
        (setProp (envKV environment) "production" (Value.vbool true))
        = some (Value.vbool true) ∧
      List.lookup "production" (envKV environment) = some (Value.vbool false)) := by
  refine ⟨?_, by decide⟩
  rw [reachable_eq_init hs, reachable_eq_init ht]

/-- Witness for C5: two reads of `production` at the initial state
agree, and the assignment behaviour holds as stated. -/
theorem reads_agree_assignment_observable_witness :
    readField environment FieldPath.production = readField environment FieldPath.production ∧
    (List.lookup "production"
        (setProp (envKV environment) "production" (Value.vbool true))
        = some (Value.vbool true) ∧
      List.lookup "production" (envKV environment) = some (Value.vbool false)) :=
  reads_agree_assignment_observable environment environment
    Reachable.init Reachable.init FieldPath.production

/-- Claim C6: reading the record or any of its fields is total and
cannot fail — property lookup by any declared name on the top-level
object, and by any declared name on the nested object, always yields a
value (never the absent result `none`). -/
theorem reads_total (name : String) :
    (name ∈ envKeys → (List.lookup name (envKV environment)).isSome = true) ∧
    (name ∈ auth0Keys → (List.lookup name (auth0KV environment.auth0)).isSome = true) := by
  constructor <;> intro h <;> fin_cases h <;> rfl

/-- Witness for C6: looking up `production` on the top-level object and
`clientId` on the nested object both succeed. -/
theorem reads_total_witness :
    (List.lookup "production" (envKV environment)).isSome = true ∧
    (List.lookup "clientId" (auth0KV environment.auth0)).isSome = true :=
  ⟨(reads_total "production").1 (by decide), (reads_total "clientId").2 (by decide)⟩

/-- Claim C7: no mutation ever occurs — over the step relation on
process state, every reachable state holds the record equal to its
initial value. -/
theorem no_mutation (s : EnvironmentConfig) (h : Reachable s) : s = environment :=
  reachable_eq_init h

/-- Witness for C7: the state reached after one read step still holds
the initial record. -/
theorem no_mutation_witness : environment = environment :=
  no_mutation environment
    (Reachable.step Reachable.init (Step.read FieldPath.production environment))

/-- Claim C8: the nested record's `audience` equals, as a string, the
top-level `apiServerUrl` (both are "http://127.0.0.1:5000"). -/
theorem audience_eq_apiServerUrl :
    environment.auth0.audience = environment.apiServerUrl := rfl

/-- Claim C9: the `clientId` is a string of exactly 32 characters, each
an ASCII letter or digit. -/
theorem clientId_shape :
    environment.auth0.clientId.length = 32 ∧
    environment.auth0.clientId.data.all Char.isAlphanum = true := by
  decide

/-- Claim C10: every URL-valued field begins with "http://127.0.0.1" —
plain scheme and loopback host — consistent with `production` being
`false`. -/
theorem urls_loopback :
    listIsPrefix "http://127.0.0.1".data environment.apiServerUrl.data = true ∧
    listIsPrefix "http://127.0.0.1".data environment.auth0.audience.data = true ∧
    listIsPrefix "http://127.0.0.1".data environment.auth0.callbackURL.data = true ∧
    environment.production = false := by
  decide
